import Mathlib

/-!
# Accelerator staging layer of the reduce collective

Shallow embedding of `ompi/mca/coll/accelerator/coll_accelerator_reduce.c`:
the two entry points `mca_coll_accelerator_reduce` and
`mca_coll_accelerator_reduce_local`.

Both functions only call into collaborators (span calculator, buffer
classifier, `malloc`/`free`, the transfer primitive and the delegated
reduction).  The embedding runs the C control flow against a `World` that
supplies the answer of every external call, and returns the status code
together with the ordered trace of the external calls that were made.
-/

namespace CollAccelerator

/-- Addresses are integers; pointer arithmetic on `char *` is integer arithmetic. -/
abbrev Ptr := Int

/-- The null pointer. -/
def NULL : Ptr := 0

/-- Transfer direction passed to `mca_coll_accelerator_memcpy`. -/
inductive Direction where
  | DTOH
  | HTOD
  deriving DecidableEq, Repr

/-- Which of the two buffers a call site works on: the send buffer
(`sbuf`, `sbuf1`, `sbuf_dev`) or the receive buffer (`rbuf`, `rbuf1`, `rbuf_dev`). -/
inductive Side where
  | send
  | recv
  deriving DecidableEq, Repr

/-- Constants that the source takes from headers outside the file. -/
structure Consts where
  OMPI_SUCCESS : Int
  OMPI_ERR_OUT_OF_RESOURCE : Int
  MPI_IN_PLACE : Ptr
  MCA_ACCELERATOR_NO_DEVICE_ID : Int

/-- The values of the constants used in the concrete examples (those of the Open MPI
headers: `OMPI_SUCCESS = 0`, `OMPI_ERR_OUT_OF_RESOURCE = -2`, `MPI_IN_PLACE = (void *) 1`,
`MCA_ACCELERATOR_NO_DEVICE_ID = -1`). -/
def ompiConsts : Consts :=
  { OMPI_SUCCESS := 0
    OMPI_ERR_OUT_OF_RESOURCE := -2
    MPI_IN_PLACE := 1
    MCA_ACCELERATOR_NO_DEVICE_ID := -1 }

/-- One external call, with its arguments (and, for the classifier and
`malloc`, the answer it gave). -/
inductive Event where
  /-- Call `rc = mca_coll_accelerator_check_buf(ptr, &dev)`. -/
  | check_buf (side : Side) (ptr : Ptr) (rc : Int) (dev : Int)
  /-- Call `result = malloc(size)`. -/
  | malloc (side : Side) (size : Nat) (result : Ptr)
  /-- Call `mca_coll_accelerator_memcpy(dst, dst_dev, src, src_dev, size, dir)`. -/
  | memcpy (side : Side) (dst : Ptr) (dst_dev : Int) (src : Ptr) (src_dev : Int)
      (size : Nat) (dir : Direction)
  /-- Call `free(ptr)`. -/
  | free (side : Side) (ptr : Ptr)
  /-- Call `s->c_coll.coll_reduce(sbuf, rbuf, count, dtype, op, root, comm, module)`. -/
  | coll_reduce (sbuf rbuf : Ptr) (count : Nat) (dtype op : Nat) (root : Int)
      (comm : Nat) (module : Nat)
  /-- Call `ompi_op_reduce(op, sbuf, rbuf, count, dtype)`. -/
  | op_reduce (op : Nat) (sbuf rbuf : Ptr) (count : Nat) (dtype : Nat)
  deriving DecidableEq, Repr

/-- Answers of the collaborators.  Every call site is executed at most once
per invocation, so indexing the classifier and the allocator by the side
they are called for lets the two answers vary independently. -/
structure World where
  /-- Result of `opal_datatype_span(&dtype->super, count, &gap)`, as `(span, gap)`. -/
  opal_datatype_span : Nat → Nat → Nat × Int
  /-- Result of `ompi_comm_rank(comm)`. -/
  ompi_comm_rank : Nat → Int
  /-- Result of `mca_coll_accelerator_check_buf(ptr, &dev)`, as `(rc, dev)`. -/
  check_buf : Side → Ptr → Int × Int
  /-- Result of `malloc(size)`; `NULL` on failure. -/
  malloc : Side → Nat → Ptr

/-- The part of `mca_coll_accelerator_module_t` the reduce uses: `c_coll.coll_reduce`
and `c_coll.coll_reduce_module`. -/
structure mca_coll_accelerator_module_t where
  coll_reduce : Ptr → Ptr → Nat → Nat → Nat → Int → Nat → Nat → Int
  coll_reduce_module : Nat

/-- Status code and trace of external calls of one invocation. -/
structure Outcome where
  rc : Int
  trace : List Event
  deriving DecidableEq, Repr

/-- Embedding of `mca_coll_accelerator_reduce` (source lines 32-92). -/
def mca_coll_accelerator_reduce (K : Consts) (W : World) (sbuf0 rbuf0 : Ptr) (count : Nat)
    (dtype op : Nat) (root : Int) (comm : Nat)
    (module : mca_coll_accelerator_module_t) : Outcome := Id.run do
  let s := module
  let rank := W.ompi_comm_rank comm
  let mut sbuf := sbuf0
  let mut rbuf := rbuf0
  let mut rbuf1 : Ptr := NULL
  let mut sbuf1 : Ptr := NULL
  let mut rbuf2 : Ptr := NULL
  let mut tr : List Event := []
  let (bufsize, gap) := W.opal_datatype_span dtype count
  let (rc, sbuf_dev) := W.check_buf Side.send sbuf
  tr := tr ++ [Event.check_buf Side.send sbuf rc sbuf_dev]
  if rc < 0 then
    return ⟨rc, tr⟩
  if K.MPI_IN_PLACE ≠ sbuf ∧ rc > 0 then
    sbuf1 := W.malloc Side.send bufsize
    tr := tr ++ [Event.malloc Side.send bufsize sbuf1]
    if NULL = sbuf1 then
      return ⟨K.OMPI_ERR_OUT_OF_RESOURCE, tr⟩
    tr := tr ++ [Event.memcpy Side.send sbuf1 K.MCA_ACCELERATOR_NO_DEVICE_ID sbuf sbuf_dev
      bufsize Direction.DTOH]
    sbuf := sbuf1 - gap
  let (rc, rbuf_dev) := W.check_buf Side.recv rbuf
  tr := tr ++ [Event.check_buf Side.recv rbuf rc rbuf_dev]
  if rc < 0 then
    return ⟨rc, tr⟩
  if rank = root ∧ rc > 0 then
    rbuf1 := W.malloc Side.recv bufsize
    tr := tr ++ [Event.malloc Side.recv bufsize rbuf1]
    if NULL = rbuf1 then
      if NULL ≠ sbuf1 then
        tr := tr ++ [Event.free Side.send sbuf1]
      return ⟨K.OMPI_ERR_OUT_OF_RESOURCE, tr⟩
    tr := tr ++ [Event.memcpy Side.recv rbuf1 K.MCA_ACCELERATOR_NO_DEVICE_ID rbuf rbuf_dev
      bufsize Direction.DTOH]
    rbuf2 := rbuf
    rbuf := rbuf1 - gap
  let rc := s.coll_reduce sbuf rbuf count dtype op root comm s.coll_reduce_module
  tr := tr ++ [Event.coll_reduce sbuf rbuf count dtype op root comm s.coll_reduce_module]
  if NULL ≠ sbuf1 then
    tr := tr ++ [Event.free Side.send sbuf1]
  if NULL ≠ rbuf1 then
    rbuf := rbuf2
    tr := tr ++ [Event.memcpy Side.recv rbuf rbuf_dev rbuf1 K.MCA_ACCELERATOR_NO_DEVICE_ID
      bufsize Direction.HTOD]
    tr := tr ++ [Event.free Side.recv rbuf1]
  return ⟨rc, tr⟩

/-- Embedding of `mca_coll_accelerator_reduce_local` (source lines 94-153). -/
def mca_coll_accelerator_reduce_local (K : Consts) (W : World) (sbuf0 rbuf0 : Ptr)
    (count : Nat) (dtype op : Nat) : Outcome := Id.run do
  let mut sbuf := sbuf0
  let mut rbuf := rbuf0
  let mut rbuf1 : Ptr := NULL
  let mut sbuf1 : Ptr := NULL
  let mut rbuf2 : Ptr := NULL
  let mut tr : List Event := []
  let (bufsize, gap) := W.opal_datatype_span dtype count
  let (rc, sbuf_dev) := W.check_buf Side.send sbuf
  tr := tr ++ [Event.check_buf Side.send sbuf rc sbuf_dev]
  if rc < 0 then
    return ⟨rc, tr⟩
  if K.MPI_IN_PLACE ≠ sbuf ∧ rc > 0 then
    sbuf1 := W.malloc Side.send bufsize
    tr := tr ++ [Event.malloc Side.send bufsize sbuf1]
    if NULL = sbuf1 then
      return ⟨K.OMPI_ERR_OUT_OF_RESOURCE, tr⟩
    tr := tr ++ [Event.memcpy Side.send sbuf1 K.MCA_ACCELERATOR_NO_DEVICE_ID sbuf sbuf_dev
      bufsize Direction.DTOH]
    sbuf := sbuf1 - gap
  let (rc, rbuf_dev) := W.check_buf Side.recv rbuf
  tr := tr ++ [Event.check_buf Side.recv rbuf rc rbuf_dev]
  if rc < 0 then
    return ⟨rc, tr⟩
  if rc > 0 then
    rbuf1 := W.malloc Side.recv bufsize
    tr := tr ++ [Event.malloc Side.recv bufsize rbuf1]
    if NULL = rbuf1 then
      if NULL ≠ sbuf1 then
        tr := tr ++ [Event.free Side.send sbuf1]
      return ⟨K.OMPI_ERR_OUT_OF_RESOURCE, tr⟩
    tr := tr ++ [Event.memcpy Side.recv rbuf1 K.MCA_ACCELERATOR_NO_DEVICE_ID rbuf rbuf_dev
      bufsize Direction.DTOH]
    rbuf2 := rbuf
    rbuf := rbuf1 - gap
  tr := tr ++ [Event.op_reduce op sbuf rbuf count dtype]
  let rc := K.OMPI_SUCCESS
  if NULL ≠ sbuf1 then
    tr := tr ++ [Event.free Side.send sbuf1]
  if NULL ≠ rbuf1 then
    rbuf := rbuf2
    tr := tr ++ [Event.memcpy Side.recv rbuf rbuf_dev rbuf1 K.MCA_ACCELERATOR_NO_DEVICE_ID
      bufsize Direction.HTOD]
    tr := tr ++ [Event.free Side.recv rbuf1]
  return ⟨rc, tr⟩

/-! ## Observers on traces -/

/-- The event is the delegated reduction (`coll_reduce` or `ompi_op_reduce`). -/
def isDelegate : Event → Bool
  | Event.coll_reduce _ _ _ _ _ _ _ _ => true
  | Event.op_reduce _ _ _ _ _ => true
  | _ => false

/-- The event is a `malloc` issued for the given side. -/
def isMallocOn (side : Side) : Event → Bool
  | Event.malloc s _ _ => decide (s = side)
  | _ => false

/-- The event is a transfer issued for the given side. -/
def isMemcpyOn (side : Side) : Event → Bool
  | Event.memcpy s _ _ _ _ _ _ => decide (s = side)
  | _ => false

/-- The event is a transfer in the given direction. -/
def isMemcpyDir (dir : Direction) : Event → Bool
  | Event.memcpy _ _ _ _ _ _ d => decide (d = dir)
  | _ => false

/-- Addresses of the host buffers obtained for a side: the non-null `malloc` results. -/
def allocatedOn (side : Side) : List Event → List Ptr
  | [] => []
  | Event.malloc s _ p :: tr =>
      if s = side ∧ p ≠ NULL then p :: allocatedOn side tr else allocatedOn side tr
  | _ :: tr => allocatedOn side tr

/-- Addresses passed to `free` for a side. -/
def freedOn (side : Side) : List Event → List Ptr
  | [] => []
  | Event.free s p :: tr => if s = side then p :: freedOn side tr else freedOn side tr
  | _ :: tr => freedOn side tr

/-- All host buffers obtained during the call. -/
def allocated (tr : List Event) : List Ptr :=
  allocatedOn Side.send tr ++ allocatedOn Side.recv tr

/-- All addresses freed during the call. -/
def freed (tr : List Event) : List Ptr :=
  freedOn Side.send tr ++ freedOn Side.recv tr

/-- Number of `malloc` calls (successful or not) issued for a side. -/
def mallocAttempts (side : Side) (tr : List Event) : Nat :=
  (tr.filter (isMallocOn side)).length

/-- Number of transfers issued for a side. -/
def transfersOn (side : Side) (tr : List Event) : Nat :=
  (tr.filter (isMemcpyOn side)).length

/-- Number of delegated reduction calls. -/
def delegateCalls (tr : List Event) : Nat :=
  (tr.filter isDelegate).length

/-- The events that follow the delegated call. -/
def afterDelegate (tr : List Event) : List Event :=
  (tr.dropWhile (fun e => !isDelegate e)).tail

/-- The events that precede the delegated call. -/
def beforeDelegate (tr : List Event) : List Event :=
  tr.takeWhile (fun e => !isDelegate e)

/-! ## Memory -/

/-- Memory contents: the byte stored at an address of a device
(`MCA_ACCELERATOR_NO_DEVICE_ID` stands for host memory). -/
abbrev Mem := Int → Int → Nat

/-- Modelled from the spec: the transfer primitive `mca_coll_accelerator_memcpy`, which is
declared in `coll_accelerator.h` and not in the source file.  It copies `size` bytes
starting at `src` on `src_dev` to `dst` on `dst_dev`. -/
def transfer (m : Mem) (dst : Ptr) (dst_dev : Int) (src : Ptr) (src_dev : Int)
    (size : Nat) : Mem :=
  fun d a => if d = dst_dev ∧ dst ≤ a ∧ a < dst + size then m src_dev (src + (a - dst)) else m d a

/-- Effect of one external call on memory: only transfers move bytes. -/
def applyEvent (m : Mem) : Event → Mem
  | Event.memcpy _ dst dst_dev src src_dev size _ => transfer m dst dst_dev src src_dev size
  | _ => m

/-- Memory as the delegated reduction finds it: the initial memory after the
transfers that precede the delegated call. -/
def memoryAtDelegation (m0 : Mem) (tr : List Event) : Mem :=
  (beforeDelegate tr).foldl applyEvent m0

/-! ## Concrete inputs -/

/-- A module whose delegated collective always succeeds. -/
def okModule : mca_coll_accelerator_module_t :=
  { coll_reduce := fun _ _ _ _ _ _ _ _ => 0
    coll_reduce_module := 7 }

/-- A module whose delegated collective always fails with `-1`. -/
def failModule : mca_coll_accelerator_module_t :=
  { coll_reduce := fun _ _ _ _ _ _ _ _ => -1
    coll_reduce_module := 7 }

/-- Both buffers live on device 3, both allocations succeed, span 4096, gap 0;
the caller has rank 0. -/
def deviceWorld : World :=
  { opal_datatype_span := fun _ _ => (4096, 0)
    ompi_comm_rank := fun _ => 0
    check_buf := fun _ _ => (1, 3)
    malloc := fun s _ => if s = Side.send then 5000 else 10000 }

/-- Both buffers are host memory. -/
def hostWorld : World :=
  { opal_datatype_span := fun _ _ => (4096, 0)
    ompi_comm_rank := fun _ => 0
    check_buf := fun _ _ => (0, 0)
    malloc := fun s _ => if s = Side.send then 5000 else 10000 }

/-- The send buffer lives on device 3 and its staging allocation succeeds; the
classifier fails with `-1` on the receive buffer. -/
def recvUnclassifiableWorld : World :=
  { opal_datatype_span := fun _ _ => (4096, 0)
    ompi_comm_rank := fun _ => 0
    check_buf := fun s _ => if s = Side.send then (1, 3) else (-1, 0)
    malloc := fun s _ => if s = Side.send then 5000 else 10000 }

/-- The send buffer lives on device 3 and its staging allocation fails. -/
def sendAllocFailsWorld : World :=
  { opal_datatype_span := fun _ _ => (4096, 0)
    ompi_comm_rank := fun _ => 0
    check_buf := fun _ _ => (1, 3)
    malloc := fun _ _ => NULL }

/-- Both buffers live on device 3; the send-side allocation succeeds, the
receive-side allocation fails. -/
def recvAllocFailsWorld : World :=
  { opal_datatype_span := fun _ _ => (4096, 0)
    ompi_comm_rank := fun _ => 0
    check_buf := fun _ _ => (1, 3)
    malloc := fun s _ => if s = Side.send then 5000 else NULL }

/-- The send buffer lives on device 3, the receive buffer is host memory; the datatype
is one 4-byte element placed at displacement 4, so span 4 and gap 4. -/
def gapWorld : World :=
  { opal_datatype_span := fun _ _ => (4, 4)
    ompi_comm_rank := fun _ => 0
    check_buf := fun s _ => if s = Side.send then (1, 3) else (0, 0)
    malloc := fun s _ => if s = Side.send then 5000 else 10000 }

/-- Initial memory for `gapWorld`: on device 3 the bytes at `1000 .. 1007` are
`1, 2, .., 8`, so the element stored at `1004 .. 1007` has bytes `5, 6, 7, 8`; every other
byte, host memory included, is `0`. -/
def gapMem : Mem :=
  fun d a => if d = 3 ∧ 1000 ≤ a ∧ a < 1008 then (a - 999).toNat else 0

/-! ## Theorems -/

/-- Every run of `mca_coll_accelerator_reduce` follows one of ten paths through the
function; each disjunct gives the branch conditions of a path and the outcome on it. -/
theorem reduce_paths (K : Consts) (W : World) (sbuf rbuf : Ptr)
    (count dtype op : Nat) (root : Int) (comm : Nat) (module : mca_coll_accelerator_module_t)
    (bufsize : Nat) (gap : Int) (hspan : W.opal_datatype_span dtype count = (bufsize, gap))
    (rcs devs : Int) (hcs : W.check_buf Side.send sbuf = (rcs, devs))
    (rcr devr : Int) (hcr : W.check_buf Side.recv rbuf = (rcr, devr))
    (sbuf1 : Ptr) (hms : W.malloc Side.send bufsize = sbuf1)
    (rbuf1 : Ptr) (hmr : W.malloc Side.recv bufsize = rbuf1) :
    (rcs < 0
      ∧ mca_coll_accelerator_reduce K W sbuf rbuf count dtype op root comm module
        = ⟨rcs, [Event.check_buf Side.send sbuf rcs devs]⟩)
    ∨ ((0 ≤ rcs ∧ (K.MPI_IN_PLACE ≠ sbuf ∧ 0 < rcs) ∧ sbuf1 = NULL)
      ∧ mca_coll_accelerator_reduce K W sbuf rbuf count dtype op root comm module
        = ⟨K.OMPI_ERR_OUT_OF_RESOURCE,
           [Event.check_buf Side.send sbuf rcs devs, Event.malloc Side.send bufsize sbuf1]⟩)
    ∨ ((0 ≤ rcs ∧ (K.MPI_IN_PLACE ≠ sbuf ∧ 0 < rcs) ∧ sbuf1 ≠ NULL ∧ rcr < 0)
      ∧ mca_coll_accelerator_reduce K W sbuf rbuf count dtype op root comm module
        = ⟨rcr,
           [Event.check_buf Side.send sbuf rcs devs, Event.malloc Side.send bufsize sbuf1,
            Event.memcpy Side.send sbuf1 K.MCA_ACCELERATOR_NO_DEVICE_ID sbuf devs bufsize
              Direction.DTOH,
            Event.check_buf Side.recv rbuf rcr devr]⟩)
    ∨ ((0 ≤ rcs ∧ (K.MPI_IN_PLACE ≠ sbuf ∧ 0 < rcs) ∧ sbuf1 ≠ NULL ∧ 0 ≤ rcr
        ∧ (W.ompi_comm_rank comm = root ∧ 0 < rcr) ∧ rbuf1 = NULL)
      ∧ mca_coll_accelerator_reduce K W sbuf rbuf count dtype op root comm module
        = ⟨K.OMPI_ERR_OUT_OF_RESOURCE,
           [Event.check_buf Side.send sbuf rcs devs, Event.malloc Side.send bufsize sbuf1,
            Event.memcpy Side.send sbuf1 K.MCA_ACCELERATOR_NO_DEVICE_ID sbuf devs bufsize
              Direction.DTOH,
            Event.check_buf Side.recv rbuf rcr devr, Event.malloc Side.recv bufsize rbuf1,
            Event.free Side.send sbuf1]⟩)
    ∨ ((0 ≤ rcs ∧ (K.MPI_IN_PLACE ≠ sbuf ∧ 0 < rcs) ∧ sbuf1 ≠ NULL ∧ 0 ≤ rcr
        ∧ (W.ompi_comm_rank comm = root ∧ 0 < rcr) ∧ rbuf1 ≠ NULL)
      ∧ mca_coll_accelerator_reduce K W sbuf rbuf count dtype op root comm module
        = ⟨module.coll_reduce (sbuf1 - gap) (rbuf1 - gap) count dtype op root comm
             module.coll_reduce_module,
           [Event.check_buf Side.send sbuf rcs devs, Event.malloc Side.send bufsize sbuf1,
            Event.memcpy Side.send sbuf1 K.MCA_ACCELERATOR_NO_DEVICE_ID sbuf devs bufsize
              Direction.DTOH,
            Event.check_buf Side.recv rbuf rcr devr, Event.malloc Side.recv bufsize rbuf1,
            Event.memcpy Side.recv rbuf1 K.MCA_ACCELERATOR_NO_DEVICE_ID rbuf devr bufsize
              Direction.DTOH,
            Event.coll_reduce (sbuf1 - gap) (rbuf1 - gap) count dtype op root comm
              module.coll_reduce_module,
            Event.free Side.send sbuf1,
            Event.memcpy Side.recv rbuf devr rbuf1 K.MCA_ACCELERATOR_NO_DEVICE_ID bufsize
              Direction.HTOD,
            Event.free Side.recv rbuf1]⟩)
    ∨ ((0 ≤ rcs ∧ (K.MPI_IN_PLACE ≠ sbuf ∧ 0 < rcs) ∧ sbuf1 ≠ NULL ∧ 0 ≤ rcr
        ∧ ¬ (W.ompi_comm_rank comm = root ∧ 0 < rcr))
      ∧ mca_coll_accelerator_reduce K W sbuf rbuf count dtype op root comm module
        = ⟨module.coll_reduce (sbuf1 - gap) rbuf count dtype op root comm
             module.coll_reduce_module,
           [Event.check_buf Side.send sbuf rcs devs, Event.malloc Side.send bufsize sbuf1,
            Event.memcpy Side.send sbuf1 K.MCA_ACCELERATOR_NO_DEVICE_ID sbuf devs bufsize
              Direction.DTOH,
            Event.check_buf Side.recv rbuf rcr devr,
            Event.coll_reduce (sbuf1 - gap) rbuf count dtype op root comm
              module.coll_reduce_module,
            Event.free Side.send sbuf1]⟩)
    ∨ ((0 ≤ rcs ∧ ¬ (K.MPI_IN_PLACE ≠ sbuf ∧ 0 < rcs) ∧ rcr < 0)
      ∧ mca_coll_accelerator_reduce K W sbuf rbuf count dtype op root comm module
        = ⟨rcr,
           [Event.check_buf Side.send sbuf rcs devs, Event.check_buf Side.recv rbuf rcr devr]⟩)
    ∨ ((0 ≤ rcs ∧ ¬ (K.MPI_IN_PLACE ≠ sbuf ∧ 0 < rcs) ∧ 0 ≤ rcr
        ∧ (W.ompi_comm_rank comm = root ∧ 0 < rcr) ∧ rbuf1 = NULL)
      ∧ mca_coll_accelerator_reduce K W sbuf rbuf count dtype op root comm module
        = ⟨K.OMPI_ERR_OUT_OF_RESOURCE,
           [Event.check_buf Side.send sbuf rcs devs, Event.check_buf Side.recv rbuf rcr devr,
            Event.malloc Side.recv bufsize rbuf1]⟩)
    ∨ ((0 ≤ rcs ∧ ¬ (K.MPI_IN_PLACE ≠ sbuf ∧ 0 < rcs) ∧ 0 ≤ rcr
        ∧ (W.ompi_comm_rank comm = root ∧ 0 < rcr) ∧ rbuf1 ≠ NULL)
      ∧ mca_coll_accelerator_reduce K W sbuf rbuf count dtype op root comm module
        = ⟨module.coll_reduce sbuf (rbuf1 - gap) count dtype op root comm
             module.coll_reduce_module,
           [Event.check_buf Side.send sbuf rcs devs, Event.check_buf Side.recv rbuf rcr devr,
            Event.malloc Side.recv bufsize rbuf1,
            Event.memcpy Side.recv rbuf1 K.MCA_ACCELERATOR_NO_DEVICE_ID rbuf devr bufsize
              Direction.DTOH,
            Event.coll_reduce sbuf (rbuf1 - gap) count dtype op root comm
              module.coll_reduce_module,
            Event.memcpy Side.recv rbuf devr rbuf1 K.MCA_ACCELERATOR_NO_DEVICE_ID bufsize
              Direction.HTOD,
            Event.free Side.recv rbuf1]⟩)
    ∨ ((0 ≤ rcs ∧ ¬ (K.MPI_IN_PLACE ≠ sbuf ∧ 0 < rcs) ∧ 0 ≤ rcr
        ∧ ¬ (W.ompi_comm_rank comm = root ∧ 0 < rcr))
      ∧ mca_coll_accelerator_reduce K W sbuf rbuf count dtype op root comm module
        = ⟨module.coll_reduce sbuf rbuf count dtype op root comm module.coll_reduce_module,
           [Event.check_buf Side.send sbuf rcs devs, Event.check_buf Side.recv rbuf rcr devr,
            Event.coll_reduce sbuf rbuf count dtype op root comm
              module.coll_reduce_module]⟩) := by
  unfold mca_coll_accelerator_reduce
  simp only [Id.run, bind, pure, hspan, hcs, hcr, hms, hmr]
  split_ifs <;> simp_all [eq_comm (a := NULL)]

/-- Every run of `mca_coll_accelerator_reduce_local` follows one of ten paths through the
function; each disjunct gives the branch conditions of a path and the outcome on it. -/
theorem reduce_local_paths (K : Consts) (W : World) (sbuf rbuf : Ptr)
    (count dtype op : Nat)
    (bufsize : Nat) (gap : Int) (hspan : W.opal_datatype_span dtype count = (bufsize, gap))
    (rcs devs : Int) (hcs : W.check_buf Side.send sbuf = (rcs, devs))
    (rcr devr : Int) (hcr : W.check_buf Side.recv rbuf = (rcr, devr))
    (sbuf1 : Ptr) (hms : W.malloc Side.send bufsize = sbuf1)
    (rbuf1 : Ptr) (hmr : W.malloc Side.recv bufsize = rbuf1) :
    (rcs < 0
      ∧ mca_coll_accelerator_reduce_local K W sbuf rbuf count dtype op
        = ⟨rcs, [Event.check_buf Side.send sbuf rcs devs]⟩)
    ∨ ((0 ≤ rcs ∧ (K.MPI_IN_PLACE ≠ sbuf ∧ 0 < rcs) ∧ sbuf1 = NULL)
      ∧ mca_coll_accelerator_reduce_local K W sbuf rbuf count dtype op
        = ⟨K.OMPI_ERR_OUT_OF_RESOURCE,
           [Event.check_buf Side.send sbuf rcs devs, Event.malloc Side.send bufsize sbuf1]⟩)
    ∨ ((0 ≤ rcs ∧ (K.MPI_IN_PLACE ≠ sbuf ∧ 0 < rcs) ∧ sbuf1 ≠ NULL ∧ rcr < 0)
      ∧ mca_coll_accelerator_reduce_local K W sbuf rbuf count dtype op
        = ⟨rcr,
           [Event.check_buf Side.send sbuf rcs devs, Event.malloc Side.send bufsize sbuf1,
            Event.memcpy Side.send sbuf1 K.MCA_ACCELERATOR_NO_DEVICE_ID sbuf devs bufsize
              Direction.DTOH,
            Event.check_buf Side.recv rbuf rcr devr]⟩)
    ∨ ((0 ≤ rcs ∧ (K.MPI_IN_PLACE ≠ sbuf ∧ 0 < rcs) ∧ sbuf1 ≠ NULL ∧ 0 ≤ rcr
        ∧ 0 < rcr ∧ rbuf1 = NULL)
      ∧ mca_coll_accelerator_reduce_local K W sbuf rbuf count dtype op
        = ⟨K.OMPI_ERR_OUT_OF_RESOURCE,
           [Event.check_buf Side.send sbuf rcs devs, Event.malloc Side.send bufsize sbuf1,
            Event.memcpy Side.send sbuf1 K.MCA_ACCELERATOR_NO_DEVICE_ID sbuf devs bufsize
              Direction.DTOH,
            Event.check_buf Side.recv rbuf rcr devr, Event.malloc Side.recv bufsize rbuf1,
            Event.free Side.send sbuf1]⟩)
    ∨ ((0 ≤ rcs ∧ (K.MPI_IN_PLACE ≠ sbuf ∧ 0 < rcs) ∧ sbuf1 ≠ NULL ∧ 0 ≤ rcr
        ∧ 0 < rcr ∧ rbuf1 ≠ NULL)
      ∧ mca_coll_accelerator_reduce_local K W sbuf rbuf count dtype op
        = ⟨K.OMPI_SUCCESS,
           [Event.check_buf Side.send sbuf rcs devs, Event.malloc Side.send bufsize sbuf1,
            Event.memcpy Side.send sbuf1 K.MCA_ACCELERATOR_NO_DEVICE_ID sbuf devs bufsize
              Direction.DTOH,
            Event.check_buf Side.recv rbuf rcr devr, Event.malloc Side.recv bufsize rbuf1,
            Event.memcpy Side.recv rbuf1 K.MCA_ACCELERATOR_NO_DEVICE_ID rbuf devr bufsize
              Direction.DTOH,
            Event.op_reduce op (sbuf1 - gap) (rbuf1 - gap) count dtype,
            Event.free Side.send sbuf1,
            Event.memcpy Side.recv rbuf devr rbuf1 K.MCA_ACCELERATOR_NO_DEVICE_ID bufsize
              Direction.HTOD,
            Event.free Side.recv rbuf1]⟩)
    ∨ ((0 ≤ rcs ∧ (K.MPI_IN_PLACE ≠ sbuf ∧ 0 < rcs) ∧ sbuf1 ≠ NULL ∧ 0 ≤ rcr
        ∧ ¬ 0 < rcr)
      ∧ mca_coll_accelerator_reduce_local K W sbuf rbuf count dtype op
        = ⟨K.OMPI_SUCCESS,
           [Event.check_buf Side.send sbuf rcs devs, Event.malloc Side.send bufsize sbuf1,
            Event.memcpy Side.send sbuf1 K.MCA_ACCELERATOR_NO_DEVICE_ID sbuf devs bufsize
              Direction.DTOH,
            Event.check_buf Side.recv rbuf rcr devr,
            Event.op_reduce op (sbuf1 - gap) rbuf count dtype,
            Event.free Side.send sbuf1]⟩)
    ∨ ((0 ≤ rcs ∧ ¬ (K.MPI_IN_PLACE ≠ sbuf ∧ 0 < rcs) ∧ rcr < 0)
      ∧ mca_coll_accelerator_reduce_local K W sbuf rbuf count dtype op
        = ⟨rcr,
           [Event.check_buf Side.send sbuf rcs devs, Event.check_buf Side.recv rbuf rcr devr]⟩)
    ∨ ((0 ≤ rcs ∧ ¬ (K.MPI_IN_PLACE ≠ sbuf ∧ 0 < rcs) ∧ 0 ≤ rcr
        ∧ 0 < rcr ∧ rbuf1 = NULL)
      ∧ mca_coll_accelerator_reduce_local K W sbuf rbuf count dtype op
        = ⟨K.OMPI_ERR_OUT_OF_RESOURCE,
           [Event.check_buf Side.send sbuf rcs devs, Event.check_buf Side.recv rbuf rcr devr,
            Event.malloc Side.recv bufsize rbuf1]⟩)
    ∨ ((0 ≤ rcs ∧ ¬ (K.MPI_IN_PLACE ≠ sbuf ∧ 0 < rcs) ∧ 0 ≤ rcr
        ∧ 0 < rcr ∧ rbuf1 ≠ NULL)
      ∧ mca_coll_accelerator_reduce_local K W sbuf rbuf count dtype op
        = ⟨K.OMPI_SUCCESS,
           [Event.check_buf Side.send sbuf rcs devs, Event.check_buf Side.recv rbuf rcr devr,
            Event.malloc Side.recv bufsize rbuf1,
            Event.memcpy Side.recv rbuf1 K.MCA_ACCELERATOR_NO_DEVICE_ID rbuf devr bufsize
              Direction.DTOH,
            Event.op_reduce op sbuf (rbuf1 - gap) count dtype,
            Event.memcpy Side.recv rbuf devr rbuf1 K.MCA_ACCELERATOR_NO_DEVICE_ID bufsize
              Direction.HTOD,
            Event.free Side.recv rbuf1]⟩)
    ∨ ((0 ≤ rcs ∧ ¬ (K.MPI_IN_PLACE ≠ sbuf ∧ 0 < rcs) ∧ 0 ≤ rcr
        ∧ ¬ 0 < rcr)
      ∧ mca_coll_accelerator_reduce_local K W sbuf rbuf count dtype op
        = ⟨K.OMPI_SUCCESS,
           [Event.check_buf Side.send sbuf rcs devs, Event.check_buf Side.recv rbuf rcr devr,
            Event.op_reduce op sbuf rbuf count dtype]⟩) := by
  unfold mca_coll_accelerator_reduce_local
  simp only [Id.run, bind, pure, hspan, hcs, hcr, hms, hmr]
  split_ifs <;> simp_all [eq_comm (a := NULL)]

/-- On every exit other than a failed receive classification, the addresses freed are
exactly the host buffers obtained, each once (both entry points). -/
theorem cleanup_balanced_unless_recv_unclassified (K : Consts) (W : World) (sbuf rbuf : Ptr)
    (count dtype op : Nat) (root : Int) (comm : Nat) (module : mca_coll_accelerator_module_t)
    (out : Outcome)
    (hout : out = mca_coll_accelerator_reduce K W sbuf rbuf count dtype op root comm module
      ∨ out = mca_coll_accelerator_reduce_local K W sbuf rbuf count dtype op)
    (hok : ∀ p rc dev, Event.check_buf Side.recv p rc dev ∈ out.trace → 0 ≤ rc) :
    freed out.trace = allocated out.trace := by
  obtain ⟨span, rank, chk, mal⟩ := W
  rcases hout with rfl | rfl
  · rcases reduce_paths K ⟨span, rank, chk, mal⟩ sbuf rbuf count dtype op root comm module
      _ _ rfl _ _ rfl _ _ rfl _ rfl _ rfl with
      ⟨h, e⟩ | ⟨h, e⟩ | ⟨h, e⟩ | ⟨h, e⟩ | ⟨h, e⟩ | ⟨h, e⟩ | ⟨h, e⟩ | ⟨h, e⟩ | ⟨h, e⟩ | ⟨h, e⟩ <;>
    simp only [e] at * <;>
    simp_all [freed, freedOn, allocated, allocatedOn, eq_comm (a := NULL)]
    all_goals
      have hk := hok _ _ _ rfl rfl rfl
      omega
  · rcases reduce_local_paths K ⟨span, rank, chk, mal⟩ sbuf rbuf count dtype op
      _ _ rfl _ _ rfl _ _ rfl _ rfl _ rfl with
      ⟨h, e⟩ | ⟨h, e⟩ | ⟨h, e⟩ | ⟨h, e⟩ | ⟨h, e⟩ | ⟨h, e⟩ | ⟨h, e⟩ | ⟨h, e⟩ | ⟨h, e⟩ | ⟨h, e⟩ <;>
    simp only [e] at * <;>
    simp_all [freed, freedOn, allocated, allocatedOn, eq_comm (a := NULL)]
    all_goals
      have hk := hok _ _ _ rfl rfl rfl
      omega

/-- C1 (evaluation at the failing input): with a device-resident send buffer whose staging
allocation succeeds and a receive buffer the classifier fails on, both entry points return
the classifier's code having obtained the host buffer `5000` and freed nothing. -/
theorem leak_on_recv_classification_failure :
    mca_coll_accelerator_reduce ompiConsts recvUnclassifiableWorld 1000 2000 1024 0 0 0 0 okModule
      = ⟨-1, [Event.check_buf Side.send 1000 1 3, Event.malloc Side.send 4096 5000,
              Event.memcpy Side.send 5000 (-1) 1000 3 4096 Direction.DTOH,
              Event.check_buf Side.recv 2000 (-1) 0]⟩
    ∧ allocated (mca_coll_accelerator_reduce ompiConsts recvUnclassifiableWorld
        1000 2000 1024 0 0 0 0 okModule).trace = [5000]
    ∧ freed (mca_coll_accelerator_reduce ompiConsts recvUnclassifiableWorld
        1000 2000 1024 0 0 0 0 okModule).trace = []
    ∧ mca_coll_accelerator_reduce_local ompiConsts recvUnclassifiableWorld 1000 2000 1024 0 0
      = ⟨-1, [Event.check_buf Side.send 1000 1 3, Event.malloc Side.send 4096 5000,
              Event.memcpy Side.send 5000 (-1) 1000 3 4096 Direction.DTOH,
              Event.check_buf Side.recv 2000 (-1) 0]⟩
    ∧ allocated (mca_coll_accelerator_reduce_local ompiConsts recvUnclassifiableWorld
        1000 2000 1024 0 0).trace = [5000]
    ∧ freed (mca_coll_accelerator_reduce_local ompiConsts recvUnclassifiableWorld
        1000 2000 1024 0 0).trace = [] := by
  decide

/-- C3: whenever `mca_coll_accelerator_reduce` reaches the call to `coll_reduce`, it returns
exactly the status that call returned, and the events after the call are the free of the send
staging buffer (if staged) followed by the host-to-device write-back and the free of the
receive staging buffer (if staged); the whole trace is the same for every delegated function,
so cleanup does not depend on whether the delegate succeeded or failed. -/
theorem delegated_status_returned_after_cleanup (K : Consts) (W : World) (sbuf rbuf : Ptr)
    (count dtype op : Nat) (root : Int) (comm : Nat) (module : mca_coll_accelerator_module_t)
    (sb rb : Ptr) (c d o : Nat) (ro : Int) (cm md : Nat)
    (hcall : Event.coll_reduce sb rb c d o ro cm md ∈
      (mca_coll_accelerator_reduce K W sbuf rbuf count dtype op root comm module).trace) :
    (mca_coll_accelerator_reduce K W sbuf rbuf count dtype op root comm module).rc
      = module.coll_reduce sb rb c d o ro cm md
    ∧ afterDelegate
        (mca_coll_accelerator_reduce K W sbuf rbuf count dtype op root comm module).trace
      = (if K.MPI_IN_PLACE ≠ sbuf ∧ (W.check_buf Side.send sbuf).1 > 0
          then [Event.free Side.send (W.malloc Side.send (W.opal_datatype_span dtype count).1)]
          else [])
        ++ (if W.ompi_comm_rank comm = root ∧ (W.check_buf Side.recv rbuf).1 > 0
          then [Event.memcpy Side.recv rbuf (W.check_buf Side.recv rbuf).2
                  (W.malloc Side.recv (W.opal_datatype_span dtype count).1)
                  K.MCA_ACCELERATOR_NO_DEVICE_ID (W.opal_datatype_span dtype count).1
                  Direction.HTOD,
                Event.free Side.recv (W.malloc Side.recv (W.opal_datatype_span dtype count).1)]
          else [])
    ∧ ∀ module2 : mca_coll_accelerator_module_t,
        module2.coll_reduce_module = module.coll_reduce_module →
        (mca_coll_accelerator_reduce K W sbuf rbuf count dtype op root comm module2).trace
          = (mca_coll_accelerator_reduce K W sbuf rbuf count dtype op root comm module).trace := by
  obtain ⟨span, rank, chk, mal⟩ := W
  refine ⟨?_, ?_, ?_⟩
  · rcases reduce_paths K ⟨span, rank, chk, mal⟩ sbuf rbuf count dtype op root comm module
      _ _ rfl _ _ rfl _ _ rfl _ rfl _ rfl with
      ⟨h, e⟩ | ⟨h, e⟩ | ⟨h, e⟩ | ⟨h, e⟩ | ⟨h, e⟩ | ⟨h, e⟩ | ⟨h, e⟩ | ⟨h, e⟩ | ⟨h, e⟩ | ⟨h, e⟩ <;>
    simp only [e] at * <;> simp_all
  · rcases reduce_paths K ⟨span, rank, chk, mal⟩ sbuf rbuf count dtype op root comm module
      _ _ rfl _ _ rfl _ _ rfl _ rfl _ rfl with
      ⟨h, e⟩ | ⟨h, e⟩ | ⟨h, e⟩ | ⟨h, e⟩ | ⟨h, e⟩ | ⟨h, e⟩ | ⟨h, e⟩ | ⟨h, e⟩ | ⟨h, e⟩ | ⟨h, e⟩ <;>
    simp only [e] at * <;> simp_all [afterDelegate, isDelegate, List.dropWhile]
  · intro module2 hmod
    unfold mca_coll_accelerator_reduce
    simp only [Id.run, bind, pure, hmod, apply_ite Outcome.trace]

/-- C3 (witness): both buffers staged on the root and the delegate fails with `-1`; the
call returns `-1` after the three cleanup events, and the trace is the one obtained with a
delegate that succeeds. -/
theorem delegated_status_returned_after_cleanup_witness :
    Event.coll_reduce 5000 10000 1024 0 0 0 0 7 ∈
      (mca_coll_accelerator_reduce ompiConsts deviceWorld 1000 2000 1024 0 0 0 0
        failModule).trace
    ∧ (mca_coll_accelerator_reduce ompiConsts deviceWorld 1000 2000 1024 0 0 0 0
        failModule).rc = -1
    ∧ afterDelegate (mca_coll_accelerator_reduce ompiConsts deviceWorld 1000 2000 1024 0 0 0 0
        failModule).trace
      = [Event.free Side.send 5000, Event.memcpy Side.recv 2000 3 10000 (-1) 4096 Direction.HTOD,
         Event.free Side.recv 10000]
    ∧ (mca_coll_accelerator_reduce ompiConsts deviceWorld 1000 2000 1024 0 0 0 0 okModule).trace
      = (mca_coll_accelerator_reduce ompiConsts deviceWorld 1000 2000 1024 0 0 0 0
          failModule).trace :=
  ⟨by decide,
   (delegated_status_returned_after_cleanup ompiConsts deviceWorld 1000 2000 1024 0 0 0 0
      failModule 5000 10000 1024 0 0 0 0 7 (by decide)).1,
   (delegated_status_returned_after_cleanup ompiConsts deviceWorld 1000 2000 1024 0 0 0 0
      failModule 5000 10000 1024 0 0 0 0 7 (by decide)).2.1,
   (delegated_status_returned_after_cleanup ompiConsts deviceWorld 1000 2000 1024 0 0 0 0
      failModule 5000 10000 1024 0 0 0 0 7 (by decide)).2.2 okModule rfl⟩

/-- C4: when the classifier reports both buffers host-resident (`check_buf` returns `0` for
each), both entry points make no `malloc`, no transfer and no `free`: the only external
calls are the two classifications followed by one delegated reduction on the caller's
original `sbuf`, `rbuf`, `count`, datatype and operator (with `root` and communicator in
the rooted form), whose status is returned. -/
theorem host_buffers_pass_through (K : Consts) (W : World) (sbuf rbuf : Ptr)
    (count dtype op : Nat) (root : Int) (comm : Nat) (module : mca_coll_accelerator_module_t)
    (hs : (W.check_buf Side.send sbuf).1 = 0) (hr : (W.check_buf Side.recv rbuf).1 = 0) :
    mca_coll_accelerator_reduce K W sbuf rbuf count dtype op root comm module
      = ⟨module.coll_reduce sbuf rbuf count dtype op root comm module.coll_reduce_module,
         [Event.check_buf Side.send sbuf 0 (W.check_buf Side.send sbuf).2,
          Event.check_buf Side.recv rbuf 0 (W.check_buf Side.recv rbuf).2,
          Event.coll_reduce sbuf rbuf count dtype op root comm module.coll_reduce_module]⟩
    ∧ mca_coll_accelerator_reduce_local K W sbuf rbuf count dtype op
      = ⟨K.OMPI_SUCCESS,
         [Event.check_buf Side.send sbuf 0 (W.check_buf Side.send sbuf).2,
          Event.check_buf Side.recv rbuf 0 (W.check_buf Side.recv rbuf).2,
          Event.op_reduce op sbuf rbuf count dtype]⟩ := by
  constructor
  · unfold mca_coll_accelerator_reduce
    simp [Id.run, hs, hr, NULL]
  · unfold mca_coll_accelerator_reduce_local
    simp [Id.run, hs, hr, NULL]

/-- C4 (witness): host-resident buffers at `1000` and `2000`. -/
theorem host_buffers_pass_through_witness :
    mca_coll_accelerator_reduce ompiConsts hostWorld 1000 2000 1024 5 6 0 9 okModule
      = ⟨0, [Event.check_buf Side.send 1000 0 0, Event.check_buf Side.recv 2000 0 0,
             Event.coll_reduce 1000 2000 1024 5 6 0 9 7]⟩
    ∧ mca_coll_accelerator_reduce_local ompiConsts hostWorld 1000 2000 1024 5 6
      = ⟨0, [Event.check_buf Side.send 1000 0 0, Event.check_buf Side.recv 2000 0 0,
             Event.op_reduce 6 1000 2000 1024 5]⟩ :=
  host_buffers_pass_through ompiConsts hostWorld 1000 2000 1024 5 6 0 9 okModule rfl rfl

/-- C5: on the root, with a send buffer that is not `MPI_IN_PLACE`, both buffers classified
device-resident and both allocations succeeding, `mca_coll_accelerator_reduce` performs
exactly: classification, `malloc(span)` and device-to-host copy of `span` bytes for the
send buffer; the same three steps for the receive buffer; one `coll_reduce` call on the two
allocations minus `gap`; free of the send allocation; host-to-device copy of `span` bytes
from the receive allocation to the original `rbuf` with its device id; free of the receive
allocation.  The status returned is the delegate's. -/
theorem staged_effect_sequence (K : Consts) (W : World) (sbuf rbuf : Ptr)
    (count dtype op : Nat) (root : Int) (comm : Nat) (module : mca_coll_accelerator_module_t)
    (hroot : W.ompi_comm_rank comm = root) (hplace : sbuf ≠ K.MPI_IN_PLACE)
    (hs : (W.check_buf Side.send sbuf).1 > 0) (hr : (W.check_buf Side.recv rbuf).1 > 0)
    (hsm : W.malloc Side.send (W.opal_datatype_span dtype count).1 ≠ NULL)
    (hrm : W.malloc Side.recv (W.opal_datatype_span dtype count).1 ≠ NULL) :
    mca_coll_accelerator_reduce K W sbuf rbuf count dtype op root comm module
      = ⟨module.coll_reduce
            (W.malloc Side.send (W.opal_datatype_span dtype count).1
              - (W.opal_datatype_span dtype count).2)
            (W.malloc Side.recv (W.opal_datatype_span dtype count).1
              - (W.opal_datatype_span dtype count).2)
            count dtype op root comm module.coll_reduce_module,
         [Event.check_buf Side.send sbuf (W.check_buf Side.send sbuf).1
            (W.check_buf Side.send sbuf).2,
          Event.malloc Side.send (W.opal_datatype_span dtype count).1
            (W.malloc Side.send (W.opal_datatype_span dtype count).1),
          Event.memcpy Side.send (W.malloc Side.send (W.opal_datatype_span dtype count).1)
            K.MCA_ACCELERATOR_NO_DEVICE_ID sbuf (W.check_buf Side.send sbuf).2
            (W.opal_datatype_span dtype count).1 Direction.DTOH,
          Event.check_buf Side.recv rbuf (W.check_buf Side.recv rbuf).1
            (W.check_buf Side.recv rbuf).2,
          Event.malloc Side.recv (W.opal_datatype_span dtype count).1
            (W.malloc Side.recv (W.opal_datatype_span dtype count).1),
          Event.memcpy Side.recv (W.malloc Side.recv (W.opal_datatype_span dtype count).1)
            K.MCA_ACCELERATOR_NO_DEVICE_ID rbuf (W.check_buf Side.recv rbuf).2
            (W.opal_datatype_span dtype count).1 Direction.DTOH,
          Event.coll_reduce
            (W.malloc Side.send (W.opal_datatype_span dtype count).1
              - (W.opal_datatype_span dtype count).2)
            (W.malloc Side.recv (W.opal_datatype_span dtype count).1
              - (W.opal_datatype_span dtype count).2)
            count dtype op root comm module.coll_reduce_module,
          Event.free Side.send (W.malloc Side.send (W.opal_datatype_span dtype count).1),
          Event.memcpy Side.recv rbuf (W.check_buf Side.recv rbuf).2
            (W.malloc Side.recv (W.opal_datatype_span dtype count).1)
            K.MCA_ACCELERATOR_NO_DEVICE_ID (W.opal_datatype_span dtype count).1 Direction.HTOD,
          Event.free Side.recv (W.malloc Side.recv (W.opal_datatype_span dtype count).1)]⟩ := by
  have hs2 : ¬ (W.check_buf Side.send sbuf).1 < 0 := by omega
  have hr2 : ¬ (W.check_buf Side.recv rbuf).1 < 0 := by omega
  have hp : K.MPI_IN_PLACE ≠ sbuf := fun h => hplace h.symm
  have hsm2 : ¬ NULL = W.malloc Side.send (W.opal_datatype_span dtype count).1 :=
    fun h => hsm h.symm
  have hrm2 : ¬ NULL = W.malloc Side.recv (W.opal_datatype_span dtype count).1 :=
    fun h => hrm h.symm
  unfold mca_coll_accelerator_reduce
  simp [Id.run, hs, hr, hs2, hr2, hp, hsm2, hrm2, hroot]

/-- C5 (witness): span 4096, gap 0, device buffers at `1000` and `2000`, host allocations
at `5000` and `10000`, a delegate that succeeds: 2 allocations, 2 device-to-host transfers,
1 delegated call on the host pointers, 1 host-to-device transfer, 2 frees, status success. -/
theorem staged_effect_sequence_witness :
    mca_coll_accelerator_reduce ompiConsts deviceWorld 1000 2000 1024 0 0 0 0 okModule
      = ⟨0, [Event.check_buf Side.send 1000 1 3,
             Event.malloc Side.send 4096 5000,
             Event.memcpy Side.send 5000 (-1) 1000 3 4096 Direction.DTOH,
             Event.check_buf Side.recv 2000 1 3,
             Event.malloc Side.recv 4096 10000,
             Event.memcpy Side.recv 10000 (-1) 2000 3 4096 Direction.DTOH,
             Event.coll_reduce 5000 10000 1024 0 0 0 0 7,
             Event.free Side.send 5000,
             Event.memcpy Side.recv 2000 3 10000 (-1) 4096 Direction.HTOD,
             Event.free Side.recv 10000]⟩ :=
  staged_effect_sequence ompiConsts deviceWorld 1000 2000 1024 0 0 0 0 okModule
    (by decide) (by decide) (by decide) (by decide) (by decide) (by decide)

/-- C6: in both entry points, (a) if the send-side `malloc` returns `NULL`, the call returns
`OMPI_ERR_OUT_OF_RESOURCE` having performed no transfer, no free and no delegated call;
(b) if the receive-side `malloc` returns `NULL`, the call returns `OMPI_ERR_OUT_OF_RESOURCE`,
the addresses freed are exactly the (at most one) send-side staging buffer that had been
allocated, and neither the delegated reduction nor a host-to-device transfer is performed. -/
theorem out_of_resource_handling (K : Consts) (W : World) (sbuf rbuf : Ptr)
    (count dtype op : Nat) (root : Int) (comm : Nat) (module : mca_coll_accelerator_module_t)
    (out : Outcome)
    (hout : out = mca_coll_accelerator_reduce K W sbuf rbuf count dtype op root comm module
      ∨ out = mca_coll_accelerator_reduce_local K W sbuf rbuf count dtype op) :
    (∀ n, Event.malloc Side.send n NULL ∈ out.trace →
      out.rc = K.OMPI_ERR_OUT_OF_RESOURCE
      ∧ transfersOn Side.send out.trace = 0
      ∧ transfersOn Side.recv out.trace = 0
      ∧ freed out.trace = []
      ∧ delegateCalls out.trace = 0)
    ∧ (∀ n, Event.malloc Side.recv n NULL ∈ out.trace →
      out.rc = K.OMPI_ERR_OUT_OF_RESOURCE
      ∧ freedOn Side.send out.trace = allocatedOn Side.send out.trace
      ∧ (allocatedOn Side.send out.trace).length ≤ 1
      ∧ freedOn Side.recv out.trace = []
      ∧ delegateCalls out.trace = 0
      ∧ out.trace.filter (isMemcpyDir Direction.HTOD) = []) := by
  obtain ⟨span, rank, chk, mal⟩ := W
  rcases hout with rfl | rfl
  · rcases reduce_paths K ⟨span, rank, chk, mal⟩ sbuf rbuf count dtype op root comm module
      _ _ rfl _ _ rfl _ _ rfl _ rfl _ rfl with
      ⟨h, e⟩ | ⟨h, e⟩ | ⟨h, e⟩ | ⟨h, e⟩ | ⟨h, e⟩ | ⟨h, e⟩ | ⟨h, e⟩ | ⟨h, e⟩ | ⟨h, e⟩ | ⟨h, e⟩ <;>
    simp only [e] at * <;>
    simp_all [delegateCalls, transfersOn, isDelegate, isMemcpyOn, isMemcpyDir, freed, freedOn,
      allocatedOn, eq_comm (a := NULL)]
  · rcases reduce_local_paths K ⟨span, rank, chk, mal⟩ sbuf rbuf count dtype op
      _ _ rfl _ _ rfl _ _ rfl _ rfl _ rfl with
      ⟨h, e⟩ | ⟨h, e⟩ | ⟨h, e⟩ | ⟨h, e⟩ | ⟨h, e⟩ | ⟨h, e⟩ | ⟨h, e⟩ | ⟨h, e⟩ | ⟨h, e⟩ | ⟨h, e⟩ <;>
    simp only [e] at * <;>
    simp_all [delegateCalls, transfersOn, isDelegate, isMemcpyOn, isMemcpyDir, freed, freedOn,
      allocatedOn, eq_comm (a := NULL)]

/-- C6 (witness): (a) the send-side allocation fails in `mca_coll_accelerator_reduce_local`;
(b) the receive-side allocation fails in `mca_coll_accelerator_reduce` after the send buffer
was staged at `5000`, which is then freed once. -/
theorem out_of_resource_handling_witness :
    (Event.malloc Side.send 4096 NULL ∈
        (mca_coll_accelerator_reduce_local ompiConsts sendAllocFailsWorld
          1000 2000 1024 0 0).trace
      ∧ (mca_coll_accelerator_reduce_local ompiConsts sendAllocFailsWorld
          1000 2000 1024 0 0).rc = -2
      ∧ freed (mca_coll_accelerator_reduce_local ompiConsts sendAllocFailsWorld
          1000 2000 1024 0 0).trace = [])
    ∧ (Event.malloc Side.recv 4096 NULL ∈
        (mca_coll_accelerator_reduce ompiConsts recvAllocFailsWorld
          1000 2000 1024 0 0 0 0 okModule).trace
      ∧ (mca_coll_accelerator_reduce ompiConsts recvAllocFailsWorld
          1000 2000 1024 0 0 0 0 okModule).rc = -2
      ∧ freedOn Side.send (mca_coll_accelerator_reduce ompiConsts recvAllocFailsWorld
          1000 2000 1024 0 0 0 0 okModule).trace
        = allocatedOn Side.send (mca_coll_accelerator_reduce ompiConsts recvAllocFailsWorld
          1000 2000 1024 0 0 0 0 okModule).trace
      ∧ allocatedOn Side.send (mca_coll_accelerator_reduce ompiConsts recvAllocFailsWorld
          1000 2000 1024 0 0 0 0 okModule).trace = [5000]) :=
  ⟨⟨by decide,
    ((out_of_resource_handling ompiConsts sendAllocFailsWorld 1000 2000 1024 0 0 0 0 okModule
        _ (Or.inr rfl)).1 4096 (by decide)).1,
    ((out_of_resource_handling ompiConsts sendAllocFailsWorld 1000 2000 1024 0 0 0 0 okModule
        _ (Or.inr rfl)).1 4096 (by decide)).2.2.2.1⟩,
   ⟨by decide,
    ((out_of_resource_handling ompiConsts recvAllocFailsWorld 1000 2000 1024 0 0 0 0 okModule
        _ (Or.inl rfl)).2 4096 (by decide)).1,
    ((out_of_resource_handling ompiConsts recvAllocFailsWorld 1000 2000 1024 0 0 0 0 okModule
        _ (Or.inl rfl)).2 4096 (by decide)).2.1,
    by decide⟩⟩

/-- C8 (evaluation at the failing input): a datatype with span 4 and gap 4, a device-resident
send buffer `p = 1000`, device bytes `1, 2, .., 8` at `1000 .. 1007`, host allocation at
`5000`.  Both entry points copy the 4 bytes starting at `p` (not at `p + gap`) into the
allocation and hand `q = 5000 - 4` to the delegate, so at delegation the byte at
`q + gap + k` is the byte the device held at `p + k`, namely `k + 1`, and not the byte
`k + 5` the original buffer held at `p + gap + k`. -/
theorem staged_copy_ignores_gap :
    (mca_coll_accelerator_reduce_local ompiConsts gapWorld 1000 2000 1 0 0).trace
      = [Event.check_buf Side.send 1000 1 3, Event.malloc Side.send 4 5000,
         Event.memcpy Side.send 5000 (-1) 1000 3 4 Direction.DTOH,
         Event.check_buf Side.recv 2000 0 0, Event.op_reduce 0 4996 2000 1 0,
         Event.free Side.send 5000]
    ∧ (mca_coll_accelerator_reduce ompiConsts gapWorld 1000 2000 1 0 0 0 0 okModule).trace
      = [Event.check_buf Side.send 1000 1 3, Event.malloc Side.send 4 5000,
         Event.memcpy Side.send 5000 (-1) 1000 3 4 Direction.DTOH,
         Event.check_buf Side.recv 2000 0 0, Event.coll_reduce 4996 2000 1 0 0 0 0 7,
         Event.free Side.send 5000]
    ∧ (∀ k : Fin 4,
        memoryAtDelegation gapMem
            (mca_coll_accelerator_reduce_local ompiConsts gapWorld 1000 2000 1 0 0).trace
            (-1) (4996 + 4 + (k.val : Int)) = k.val + 1
        ∧ memoryAtDelegation gapMem
            (mca_coll_accelerator_reduce ompiConsts gapWorld 1000 2000 1 0 0 0 0 okModule).trace
            (-1) (4996 + 4 + (k.val : Int)) = k.val + 1
        ∧ gapMem 3 (1000 + (k.val : Int)) = k.val + 1
        ∧ gapMem 3 (1000 + 4 + (k.val : Int)) = k.val + 5) := by
  decide

/-- C9 (counterexample): on a non-root rank (rank 0, root 1) `mca_coll_accelerator_reduce`
gets past both classifications with the receive buffer classified device-resident, and no
`malloc` is attempted for the receive buffer. -/
theorem non_root_receive_buffer_not_staged :
    Event.check_buf Side.send 1000 1 3 ∈
      (mca_coll_accelerator_reduce ompiConsts deviceWorld 1000 2000 1024 0 0 1 0 okModule).trace
    ∧ Event.check_buf Side.recv 2000 1 3 ∈
      (mca_coll_accelerator_reduce ompiConsts deviceWorld 1000 2000 1024 0 0 1 0 okModule).trace
    ∧ ¬ (0 < mallocAttempts Side.recv
          (mca_coll_accelerator_reduce ompiConsts deviceWorld 1000 2000 1024 0 0 1 0
            okModule).trace
        ↔ (deviceWorld.check_buf Side.recv 2000).1 > 0) := by
  decide

/-- C9 (amended): in every call of either entry point that gets past both classifications
(the receive classification, which is only reached once the send classification passed and
the send-side allocation did not fail, returns `rc ≥ 0`), a `malloc` is attempted for the
send buffer exactly when it is classified non-host and is not `MPI_IN_PLACE`; for the
receive buffer a `malloc` is attempted exactly when it is classified non-host and, in
`mca_coll_accelerator_reduce`, the caller is the root (`rank == root`); in
`mca_coll_accelerator_reduce_local` exactly when it is classified non-host. -/
theorem allocation_iff_device_and_root (K : Consts) (W : World) (sbuf rbuf : Ptr)
    (count dtype op : Nat) (root : Int) (comm : Nat) (module : mca_coll_accelerator_module_t)
    (p : Ptr) (rc dev : Int) (hrc : 0 ≤ rc) :
    (Event.check_buf Side.recv p rc dev ∈
        (mca_coll_accelerator_reduce K W sbuf rbuf count dtype op root comm module).trace →
      0 ≤ (W.check_buf Side.send sbuf).1
      ∧ mallocAttempts Side.send
          (mca_coll_accelerator_reduce K W sbuf rbuf count dtype op root comm module).trace
        = (if K.MPI_IN_PLACE ≠ sbuf ∧ (W.check_buf Side.send sbuf).1 > 0 then 1 else 0)
      ∧ mallocAttempts Side.recv
          (mca_coll_accelerator_reduce K W sbuf rbuf count dtype op root comm module).trace
        = (if W.ompi_comm_rank comm = root ∧ rc > 0 then 1 else 0))
    ∧ (Event.check_buf Side.recv p rc dev ∈
        (mca_coll_accelerator_reduce_local K W sbuf rbuf count dtype op).trace →
      0 ≤ (W.check_buf Side.send sbuf).1
      ∧ mallocAttempts Side.send
          (mca_coll_accelerator_reduce_local K W sbuf rbuf count dtype op).trace
        = (if K.MPI_IN_PLACE ≠ sbuf ∧ (W.check_buf Side.send sbuf).1 > 0 then 1 else 0)
      ∧ mallocAttempts Side.recv
          (mca_coll_accelerator_reduce_local K W sbuf rbuf count dtype op).trace
        = (if rc > 0 then 1 else 0)) := by
  obtain ⟨span, rank, chk, mal⟩ := W
  constructor
  · intro hev
    rcases reduce_paths K ⟨span, rank, chk, mal⟩ sbuf rbuf count dtype op root comm module
      _ _ rfl _ _ rfl _ _ rfl _ rfl _ rfl with
      ⟨h, e⟩ | ⟨h, e⟩ | ⟨h, e⟩ | ⟨h, e⟩ | ⟨h, e⟩ | ⟨h, e⟩ | ⟨h, e⟩ | ⟨h, e⟩ | ⟨h, e⟩ | ⟨h, e⟩ <;>
    simp only [e] at * <;> simp_all [mallocAttempts, isMallocOn]
    all_goals
      (try unfold Ptr at *); (try refine ⟨?_, ?_⟩) <;> split_ifs <;> omega
  · intro hev
    rcases reduce_local_paths K ⟨span, rank, chk, mal⟩ sbuf rbuf count dtype op
      _ _ rfl _ _ rfl _ _ rfl _ rfl _ rfl with
      ⟨h, e⟩ | ⟨h, e⟩ | ⟨h, e⟩ | ⟨h, e⟩ | ⟨h, e⟩ | ⟨h, e⟩ | ⟨h, e⟩ | ⟨h, e⟩ | ⟨h, e⟩ | ⟨h, e⟩ <;>
    simp only [e] at * <;> simp_all [mallocAttempts, isMallocOn]
    all_goals
      (try unfold Ptr at *); (try refine ⟨?_, ?_⟩) <;> split_ifs <;> omega

/-- C9 (witness): device-resident buffers on a non-root rank (rank 0, root 1): one `malloc`
for the send buffer, none for the receive buffer; in `mca_coll_accelerator_reduce_local`
one `malloc` for each. -/
theorem allocation_iff_device_and_root_witness :
    (mallocAttempts Side.send
        (mca_coll_accelerator_reduce ompiConsts deviceWorld 1000 2000 1024 0 0 1 0
          okModule).trace = 1
      ∧ mallocAttempts Side.recv
        (mca_coll_accelerator_reduce ompiConsts deviceWorld 1000 2000 1024 0 0 1 0
          okModule).trace = 0)
    ∧ (mallocAttempts Side.send
        (mca_coll_accelerator_reduce_local ompiConsts deviceWorld 1000 2000 1024 0 0).trace = 1
      ∧ mallocAttempts Side.recv
        (mca_coll_accelerator_reduce_local ompiConsts deviceWorld 1000 2000 1024 0 0).trace = 1) :=
  ⟨((allocation_iff_device_and_root ompiConsts deviceWorld 1000 2000 1024 0 0 1 0 okModule
      2000 1 3 (by decide)).1 (by decide)).2,
   ((allocation_iff_device_and_root ompiConsts deviceWorld 1000 2000 1024 0 0 1 0 okModule
      2000 1 3 (by decide)).2 (by decide)).2⟩

end CollAccelerator
